import Mathlib

/-!
Shallow embedding of the resilient monitoring orchestrator of
`ai-search-monitor`: the rate limiter (`src/utils/rate-limiter.ts`), the
circuit breaker (`src/utils/circuit-breaker.ts`), the retry helper
(`src/utils/retry.ts`), the analyzer agent (`AnalyzerAgent`) and the
monitoring workflow (`src/core/mastra/workflows/monitoring.workflow.ts`).
Timestamps are naturals (milliseconds, as from `Date.now()`); JavaScript
floating-point averages are modelled as rationals; thrown errors are
modelled with `Except`; the `undefined` value thrown by `retry` when
`attempts = 0` is modelled as `Except.error none`.
-/

namespace AiSearchMonitor

/-! ## String helpers shared by the analyzer and the retry classifier -/

/-- Lower-case a string character by character (model of `toLowerCase()`). -/
def lowerStr (s : String) : String :=
  String.mk (s.data.map Char.toLower)

/-- Strip leading and trailing whitespace (model of `trim()`). -/
def trimStr (s : String) : String :=
  String.mk (((s.data.dropWhile Char.isWhitespace).reverse.dropWhile Char.isWhitespace).reverse)

/-- Substring test: `substrB needle hay` models JavaScript `hay.includes(needle)`. -/
def substrB (needle hay : String) : Bool :=
  hay.data.tails.any (fun suf => needle.data.isPrefixOf suf)

/-- JavaScript word character for `\b` boundaries: `[A-Za-z0-9_]`. -/
def isWordChar (c : Char) : Bool :=
  c.isAlpha || c.isDigit || c = '_'

/-- Whether position `i` of the character list `t` is a `\b` word boundary:
the word-ness of the character before `i` differs from the word-ness of the
character at `i` (positions outside the string count as non-word). -/
def boundaryAt (t : List Char) (i : Nat) : Bool :=
  let before := if i = 0 then false else
    match t.get? (i - 1) with
    | some c => isWordChar c
    | none => false
  let here := match t.get? i with
    | some c => isWordChar c
    | none => false
  before != here

/-- Whether the (already lower-cased) pattern matches at position `i` of the
(already lower-cased) text with `\b` boundaries on both sides. -/
def matchAt (t pat : List Char) (i : Nat) : Bool :=
  pat.isPrefixOf (t.drop i) && boundaryAt t i && boundaryAt t (i + pat.length)

/-- Left-to-right non-overlapping scan for whole-word matches, as produced by
`text.matchAll(new RegExp(escaped, 'gi'))`: find the next match at or after
`pos`, record its index, and resume after it. `fuel` bounds the search. -/
def scanFrom (t pat : List Char) : Nat → Nat → List Nat
  | 0, _ => []
  | fuel + 1, pos =>
    if pos > t.length then []
    else if matchAt t pat pos then pos :: scanFrom t pat fuel (pos + pat.length)
    else scanFrom t pat fuel (pos + 1)

/-- All match positions of the case-insensitive whole-word pattern `name` in
`text` (model of the analyzer's `\b<name>\b` global regex). Empty names are
never used by the callers and yield no matches. -/
def scanPositions (text name : String) : List Nat :=
  let t := (lowerStr text).data
  let pat := (lowerStr name).data
  if pat.isEmpty then [] else scanFrom t pat (t.length + 1) 0

/-! ## CircuitBreaker (`src/utils/circuit-breaker.ts`) -/

/-- Options of the `CircuitBreaker` constructor. `halfOpenRequests` is
optional in the source and defaults to 1 at use sites (`|| 1`). -/
structure CBOptions where
  failureThreshold : Nat
  resetTimeout : Nat
  halfOpenRequests : Option Nat
deriving DecidableEq

/-- The mutable fields of a `CircuitBreaker` object together with its
construction options. `state` is the string union
`'CLOSED' | 'OPEN' | 'HALF_OPEN'` of the source. -/
structure CB where
  opts : CBOptions
  failureCount : Nat
  lastFailureTime : Option Nat
  state : String
  halfOpenAttempts : Nat
deriving DecidableEq

/-- A freshly constructed breaker: counters zero, no failure time, CLOSED. -/
def initCB (opts : CBOptions) : CB :=
  ⟨opts, 0, none, "CLOSED", 0⟩

/-- Model of `isOpen()`: in OPEN, lazily switch to HALF_OPEN when the reset timeout
has elapsed since the last failure (returning `false`); otherwise report
`true`; in any other state report `false`. Returns the answer and the
possibly mutated breaker. -/
def isOpenCB (now : Nat) (b : CB) : Bool × CB :=
  if b.state = "OPEN" then
    match b.lastFailureTime with
    | some t =>
      if now - t > b.opts.resetTimeout then
        (false, { b with state := "HALF_OPEN", halfOpenAttempts := 0 })
      else (true, b)
    | none => (true, b)
  else (false, b)

/-- Model of `recordSuccess()`: in HALF_OPEN count the success and close the breaker
once `halfOpenRequests` (default 1) successes are reached, resetting
`failureCount`; in CLOSED decrement `failureCount` with floor 0. -/
def recordSuccessCB (b : CB) : CB :=
  if b.state = "HALF_OPEN" then
    let attempts := b.halfOpenAttempts + 1
    let required := b.opts.halfOpenRequests.getD 1
    if attempts ≥ required then
      { b with state := "CLOSED", failureCount := 0, halfOpenAttempts := 0 }
    else { b with halfOpenAttempts := attempts }
  else if b.state = "CLOSED" then
    { b with failureCount := b.failureCount - 1 }
  else b

/-- Model of `recordFailure()`: bump the failure count and timestamp; HALF_OPEN trips
straight back to OPEN; otherwise trip to OPEN once the threshold is hit. -/
def recordFailureCB (now : Nat) (b : CB) : CB :=
  let b1 := { b with failureCount := b.failureCount + 1, lastFailureTime := some now }
  if b.state = "HALF_OPEN" then
    { b1 with state := "OPEN", halfOpenAttempts := 0 }
  else if b1.failureCount ≥ b.opts.failureThreshold then
    { b1 with state := "OPEN" }
  else b1

/-! ## RateLimiter (`src/utils/rate-limiter.ts`) -/

/-- Model of `tryAcquire()`: drop the admission timestamps at or before
`now - windowMs` (the source keeps `time > windowStart`, compared over the
integers since `windowStart` may be negative), then admit iff fewer than
`maxRequests` remain. Returns the answer and the new timestamp list. -/
def tryAcquireL (maxRequests windowMs now : Nat) (reqs : List Nat) : Bool × List Nat :=
  let windowStart : Int := (now : Int) - (windowMs : Int)
  let kept : List Nat := reqs.filter (fun (t : Nat) => decide ((t : Int) > windowStart))
  if kept.length < maxRequests then (true, kept ++ [now]) else (false, kept)

/-- Model of `getResetTime()`: `oldest + windowMs - now`, floored at 0; 0 when the
timestamp list is empty. -/
def getResetTimeL (windowMs now : Nat) (reqs : List Nat) : Int :=
  match reqs with
  | [] => 0
  | t :: ts =>
    let oldest := ts.foldl Nat.min t
    max 0 ((oldest : Int) + (windowMs : Int) - (now : Int))

/-! ## Retry helper (`src/utils/retry.ts`) -/

/-- A thrown JavaScript `Error`: its `message` and its (possibly empty)
`code` property. -/
structure ErrObj where
  message : String
  code : String
deriving DecidableEq

/-- The `retryableErrors` list of `isRetryableError`. -/
def retryableErrors : List String :=
  ["TIMEOUT", "ETIMEDOUT", "ECONNRESET", "ECONNREFUSED", "NETWORK_ERROR",
   "RATE_LIMIT", "TEMPORARY_FAILURE", "429", "503", "504"]

/-- Model of `isRetryableError`: some listed token occurs in the message, occurs in
the code, or equals the code. -/
def isRetryableErrorB (e : ErrObj) : Bool :=
  retryableErrors.any (fun t => substrB t e.message || substrB t e.code || e.code = t)

/-- The attempt loop of `retry`, with `remaining` attempts left,
`attemptNo` the 1-based number of the next attempt and `count` the number
of invocations of the operation so far. When the loop is entered with zero
attempts the trailing `throw lastError!` throws `undefined`, modelled as
`Except.error none`. A failing attempt whose error the retry condition
rejects, or which was the last attempt, rethrows that error. -/
def retryAux {R : Type} (op : Nat → Except ErrObj R) (cond : ErrObj → Bool) :
    Nat → Nat → Nat → Except (Option ErrObj) R × Nat
  | 0, _, count => (Except.error none, count)
  | remaining + 1, attemptNo, count =>
    match op attemptNo with
    | Except.ok r => (Except.ok r, count + 1)
    | Except.error e =>
      if ¬ cond e then (Except.error (some e), count + 1)
      else if remaining = 0 then (Except.error (some e), count + 1)
      else retryAux op cond remaining (attemptNo + 1) (count + 1)

/-- Model of `retry(fn, options)`: run up to `attempts` attempts of the operation
(indexed by attempt number) under the retry condition, also reporting how
often the operation was invoked. -/
def retryRun {R : Type} (op : Nat → Except ErrObj R) (attempts : Nat)
    (cond : ErrObj → Bool) : Except (Option ErrObj) R × Nat :=
  retryAux op cond attempts 1 0

/-! ## AnalyzerAgent (`src/core/mastra/agents/analyzer.agent.ts`) -/

/-- One brand's mention record. `sentiment` is the string union
`'positive' | 'neutral' | 'negative'`. -/
structure BrandMention where
  brand : String
  count : Nat
  positions : List Nat
  contexts : List String
  sentiment : String
  strength : Nat
deriving DecidableEq

/-- One competitor's mention record. -/
structure CompetitorMention where
  competitor : String
  count : Nat
  positions : List Nat
  comparisonContext : Option String
deriving DecidableEq

/-- The `breakdown` ratios of `SentimentAnalysis`. -/
structure SentimentBreakdown where
  positive : Rat
  neutral : Rat
  negative : Rat
deriving DecidableEq

/-- Overall sentiment: label, score in [-1, 1] and per-label ratios. -/
structure SentimentAnalysis where
  overall : String
  score : Rat
  breakdown : SentimentBreakdown
deriving DecidableEq

/-- Position analysis; the sentinel value uses -1 and bucket `"end"`. -/
structure PositionAnalysis where
  averagePosition : Rat
  firstMentionPosition : Int
  lastMentionPosition : Int
  relativePosition : String
deriving DecidableEq

/-- The four named visibility factors. -/
structure VisibilityFactors where
  mentionCount : Nat
  positionScore : Nat
  sentimentScore : Nat
  competitorComparison : Nat
deriving DecidableEq

/-- Total visibility score with its factors. -/
structure VisibilityScore where
  score : Nat
  factors : VisibilityFactors
deriving DecidableEq

/-- Model of `extractContext`: the ±`windowSize`-character window around `position`,
clamped to the text and trimmed. -/
def extractContext (text : String) (position windowSize : Nat) : String :=
  let chars := text.data
  let start := position - windowSize
  let stop := Nat.min chars.length (position + windowSize)
  trimStr (String.mk ((chars.drop start).take (stop - start)))

/-- The positive-word list of `analyzeMentionSentiment`. -/
def positiveWords : List String :=
  ["best", "excellent", "great", "recommended", "top", "leading",
   "最高", "優れ", "おすすめ", "人気", "信頼"]

/-- The negative-word list of `analyzeMentionSentiment`. -/
def negativeWords : List String :=
  ["poor", "bad", "worst", "avoid", "problem", "issue",
   "問題", "悪い", "避ける", "欠点"]

/-- Count, over every context and every word of the list, how often the
lower-cased context contains the word. -/
def countWordHits (words : List String) (contexts : List String) : Nat :=
  contexts.foldl
    (fun acc context =>
      acc + (words.filter (fun w => substrB w (lowerStr context))).length)
    0

/-- Model of `analyzeMentionSentiment`: positive when the positive hits exceed 1.5×
the negative hits, negative in the inverse case, else neutral (the factor
1.5 is exact, so it is compared as `2·p > 3·n`). -/
def analyzeMentionSentiment (contexts : List String) : String :=
  let positiveCount := countWordHits positiveWords contexts
  let negativeCount := countWordHits negativeWords contexts
  if 2 * positiveCount > 3 * negativeCount then "positive"
  else if 2 * negativeCount > 3 * positiveCount then "negative"
  else "neutral"

/-- The strong-endorsement regex
`/highly recommend|strongly recommend|best choice|top choice/i`. -/
def endorsementMatch (context : String) : Bool :=
  let lc := lowerStr context
  substrB "highly recommend" lc || substrB "strongly recommend" lc ||
  substrB "best choice" lc || substrB "top choice" lc

/-- The primary-subject check: `context.startsWith(brand)` (case sensitive)
or the case-insensitive regex `^<brand>\s+(is|are)` (unanchored at the end,
so e.g. `"X island"` matches for brand `"X"`). -/
def subjectMatch (context brand : String) : Bool :=
  brand.data.isPrefixOf context.data ||
  (let lc := (lowerStr context).data
   let lb := (lowerStr brand).data
   if lb.isPrefixOf lc then
     let rest := lc.drop lb.length
     let ws := rest.takeWhile Char.isWhitespace
     let rest2 := rest.drop ws.length
     decide (0 < ws.length) &&
       ("is".data.isPrefixOf rest2 || "are".data.isPrefixOf rest2)
   else false)

/-- The comparison-win regex `/better than|superior to|outperforms/i`. -/
def comparisonWinMatch (context : String) : Bool :=
  let lc := lowerStr context
  substrB "better than" lc || substrB "superior to" lc || substrB "outperforms" lc

/-- Model of `calculateMentionStrength`: start from the base 50 and, for EVERY
context, add 10 for a strong endorsement, 5 for the brand as primary
subject and 5 for a comparison win; finally cap at 100. -/
def calculateMentionStrength (contexts : List String) (brand : String) : Nat :=
  let strength := contexts.foldl
    (fun acc context =>
      let a1 := if endorsementMatch context then acc + 10 else acc
      let a2 := if subjectMatch context brand then a1 + 5 else a1
      if comparisonWinMatch context then a2 + 5 else a2)
    50
  Nat.min strength 100

/-- Model of `analyzeBrandMentions`: for each brand with at least one whole-word
match, record its positions, context windows (±150), per-mention sentiment
and mention strength. -/
def analyzeBrandMentions (text : String) : List String → List BrandMention
  | [] => []
  | brand :: rest =>
    let ps := scanPositions text brand
    let tail := analyzeBrandMentions text rest
    if 0 < ps.length then
      let contexts := ps.map (fun p => extractContext text p 150)
      { brand := brand, count := ps.length, positions := ps,
        contexts := contexts,
        sentiment := analyzeMentionSentiment contexts,
        strength := calculateMentionStrength contexts brand } :: tail
    else tail

/-- The leftmost position in `t` at which one of the patterns matches. -/
def firstMatchPos (t : List Char) (pats : List (List Char)) : Nat → Nat → Option Nat
  | 0, _ => none
  | fuel + 1, pos =>
    if pos > t.length then none
    else if pats.any (fun p => p.isPrefixOf (t.drop pos)) then some pos
    else firstMatchPos t pats fuel (pos + 1)

/-- Model of `findComparisonContext`: try the four case-insensitive comparison
patterns in order (`compared to X`, `versus X`, `vs.? X`, `X vs.?`) and
return the ±200-character context of the first one that matches. -/
def findComparisonContext (text competitor : String) : Option String :=
  let t := (lowerStr text).data
  let lc := lowerStr competitor
  let fuel := t.length + 1
  let try1 := firstMatchPos t [("compared to " ++ lc).data] fuel 0
  let try2 := firstMatchPos t [("versus " ++ lc).data] fuel 0
  let try3 := firstMatchPos t [("vs. " ++ lc).data, ("vs " ++ lc).data] fuel 0
  let try4 := firstMatchPos t [(lc ++ " vs").data] fuel 0
  match try1.orElse (fun _ => try2) |>.orElse (fun _ => try3) |>.orElse (fun _ => try4) with
  | some i => some (extractContext text i 200)
  | none => none

/-- Model of `analyzeCompetitorMentions`: positions of each matched competitor plus
its optional comparison context. -/
def analyzeCompetitorMentions (text : String) : List String → List CompetitorMention
  | [] => []
  | competitor :: rest =>
    let ps := scanPositions text competitor
    let tail := analyzeCompetitorMentions text rest
    if 0 < ps.length then
      { competitor := competitor, count := ps.length, positions := ps,
        comparisonContext := findComparisonContext text competitor } :: tail
    else tail

/-- Model of `analyzeSentiment`: sum mention counts by per-mention label; an empty
total yields the neutral zero record, otherwise
`score = (positive - negative) / total` with the ±0.3 thresholds. -/
def analyzeSentiment (brandMentions : List BrandMention) : SentimentAnalysis :=
  let positive : Nat := (brandMentions.filter (fun m => m.sentiment = "positive")).foldl
    (fun acc m => acc + m.count) 0
  let negative : Nat := (brandMentions.filter (fun m => m.sentiment = "negative")).foldl
    (fun acc m => acc + m.count) 0
  let neutral : Nat := (brandMentions.filter
    (fun m => ¬ (m.sentiment = "positive") ∧ ¬ (m.sentiment = "negative"))).foldl
    (fun acc m => acc + m.count) 0
  let total : Nat := positive + neutral + negative
  if total = 0 then
    ⟨"neutral", 0, ⟨0, 0, 0⟩⟩
  else
    let score : Rat := ((((positive : Int) - (negative : Int)) : Int) : Rat) / (total : Rat)
    let overall := if score > (3 : Rat) / 10 then "positive"
      else if score < -((3 : Rat) / 10) then "negative"
      else "neutral"
    ⟨overall, score,
      ⟨(positive : Rat) / (total : Rat), (neutral : Rat) / (total : Rat),
       (negative : Rat) / (total : Rat)⟩⟩

/-- Model of `analyzePosition`: with no positions return the -1/`"end"` sentinel;
otherwise average all sorted mention offsets and bucket `average / 5000`
at 0.2 / 0.4 / 0.6 / 0.8. -/
def analyzePosition (brandMentions : List BrandMention) : PositionAnalysis :=
  if brandMentions.length = 0 || brandMentions.all (fun m => m.positions.length = 0) then
    ⟨-1, -1, -1, "end"⟩
  else
    match ((brandMentions.map (fun m => m.positions)).flatten).mergeSort
        (fun a b => decide (a ≤ b)) with
    | [] => ⟨-1, -1, -1, "end"⟩
    | p :: ps =>
      let allPositions := p :: ps
      let averagePosition : Rat := (allPositions.sum : Rat) / (allPositions.length : Rat)
      let firstMention := ps.foldl Nat.min p
      let lastMention := ps.foldl Nat.max p
      let relativePos := averagePosition / 5000
      let relativePosition := if relativePos < (1 : Rat) / 5 then "beginning"
        else if relativePos < (2 : Rat) / 5 then "early"
        else if relativePos < (3 : Rat) / 5 then "middle"
        else if relativePos < (4 : Rat) / 5 then "late"
        else "end"
      ⟨averagePosition, (firstMention : Int), (lastMention : Int), relativePosition⟩

/-- Model of `calculateVisibilityScore`: the sum of the four independently computed
factors. -/
def calculateVisibilityScore (brandMentions : List BrandMention)
    (competitorMentions : List CompetitorMention)
    (sentiment : SentimentAnalysis) (position : PositionAnalysis) : VisibilityScore :=
  let totalBrandMentions : Nat := brandMentions.foldl (fun acc m => acc + m.count) 0
  let totalCompetitorMentions : Nat := competitorMentions.foldl (fun acc m => acc + m.count) 0
  let mentionCount := Nat.min (totalBrandMentions * 5) 25
  let positionScore := if position.relativePosition = "beginning" then 25
    else if position.relativePosition = "early" then 20
    else if position.relativePosition = "middle" then 15
    else if position.relativePosition = "late" then 10
    else 5
  let sentimentScore := if sentiment.overall = "positive" then 25
    else if sentiment.overall = "neutral" then 15
    else 5
  let competitorComparison := if totalBrandMentions > totalCompetitorMentions then 25
    else if totalBrandMentions = totalCompetitorMentions then 15
    else 5
  ⟨mentionCount + positionScore + sentimentScore + competitorComparison,
   ⟨mentionCount, positionScore, sentimentScore, competitorComparison⟩⟩

/-- Model of `generateRecommendations`: the ordered, independently evaluated rule
list. -/
def generateRecommendations (brandMentions : List BrandMention)
    (competitorMentions : List CompetitorMention)
    (sentiment : SentimentAnalysis) (position : PositionAnalysis)
    (visibility : VisibilityScore) : List String :=
  let totalBrandMentions : Nat := brandMentions.foldl (fun acc m => acc + m.count) 0
  let totalCompetitorMentions : Nat := competitorMentions.foldl (fun acc m => acc + m.count) 0
  (if visibility.score < 30 then
    ["Increase brand presence through more comprehensive content",
     "Consider creating dedicated FAQ sections about your brand"]
   else []) ++
  (if position.relativePosition = "late" || position.relativePosition = "end" then
    ["Optimize content to appear earlier in AI responses",
     "Focus on primary keywords and main value propositions"]
   else []) ++
  (if sentiment.overall = "negative" then
    ["Address negative perceptions through improved messaging",
     "Create positive case studies and success stories"]
   else []) ++
  (if totalCompetitorMentions > totalBrandMentions then
    ["Strengthen competitive positioning",
     "Highlight unique differentiators more prominently"]
   else []) ++
  (if brandMentions.length = 0 then
    ["Critical: No brand mentions detected",
     "Urgent need for brand awareness campaign"]
   else [])

/-- The full analysis part of `AnalyzerAgent.execute`, a pure function of
the response text and the brand/competitor name lists. -/
structure AnalysisOut where
  brandMentions : List BrandMention
  competitorMentions : List CompetitorMention
  sentiment : SentimentAnalysis
  position : PositionAnalysis
  visibility : VisibilityScore
  recommendations : List String
deriving DecidableEq

/-- The analysis pipeline of `AnalyzerAgent.execute`. -/
def analyzeAll (text : String) (brandNames competitorNames : List String) : AnalysisOut :=
  let brandMentions := analyzeBrandMentions text brandNames
  let competitorMentions := analyzeCompetitorMentions text competitorNames
  let sentiment := analyzeSentiment brandMentions
  let position := analyzePosition brandMentions
  let visibility := calculateVisibilityScore brandMentions competitorMentions sentiment position
  let recommendations := generateRecommendations brandMentions competitorMentions
    sentiment position visibility
  ⟨brandMentions, competitorMentions, sentiment, position, visibility, recommendations⟩

/-! ## Monitoring workflow (`src/core/mastra/workflows/monitoring.workflow.ts`) -/

/-- The closed platform enum. -/
inductive Platform where
  | chatgpt
  | perplexity
  | gemini
  | claude
  | googleAI
deriving DecidableEq

/-- The per-platform `maxRequests` of the module-level `rateLimiters` map
(environment defaults). -/
def rateLimitMax : Platform → Nat
  | Platform.chatgpt => 10
  | Platform.perplexity => 20
  | Platform.gemini => 15
  | Platform.claude => 10
  | Platform.googleAI => 25

/-- The shared rate-limit window (`RATE_LIMIT_WINDOW_MS` default). -/
def rateWindowMs : Nat := 60000

/-- The breaker options used for every work unit in the workflow. -/
def workflowCBOptions : CBOptions := ⟨5, 60000, some 2⟩

/-- An entry of the workflow's top-level `errors` array: client and
platform when present, the error message string, and the reset time of
rate-limit entries. -/
structure ErrEntry where
  clientId : Option Nat
  platform : Option Platform
  msg : String
  resetTime : Option Int
deriving DecidableEq

/-- An entry of a client's `clientResults` array:
`{platform, success, data | error}`. -/
structure PResultEntry (A : Type) where
  platform : Platform
  success : Bool
  data : Option A
  errMsg : Option String
deriving DecidableEq

/-- One fulfilled client entry of the outcome's `results` array. -/
structure ClientEntry (A : Type) where
  clientId : Nat
  clientName : String
  results : List (PResultEntry A)
deriving DecidableEq

/-- The state shared across work units during one `execute` run: the
process-wide breaker map (total, with absent keys holding a fresh
breaker, mirroring the lazy `circuitBreakers.set`), the per-platform rate
limiter timestamp lists, the top-level error array, and the number of
invocations of the external scrape operation so far. -/
structure ExecState where
  breakers : Nat × Platform → CB
  limiters : Platform → List Nat
  errors : List ErrEntry
  scrapeCount : Nat

/-- Point update of the breaker map. -/
def setBreaker (f : Nat × Platform → CB) (k : Nat × Platform) (b : CB) :
    Nat × Platform → CB :=
  fun k' => if k' = k then b else f k'

/-- Point update of the limiter map. -/
def setLimiter (f : Platform → List Nat) (p : Platform) (l : List Nat) :
    Platform → List Nat :=
  fun p' => if p' = p then l else f p'

/-- What one work unit contributed to the client's `clientResults`:
nothing (skipped by breaker or limiter), one entry, or a crash of the
whole client task (the `TypeError` raised in the catch block when the
caught value is `undefined` and `error.message` is read). -/
inductive UnitStep (A : Type) where
  | skip : UnitStep A
  | entry : PResultEntry A → UnitStep A
  | crashed : UnitStep A
deriving DecidableEq

/-- One (client, platform) work unit of `execute`, lines 84–201 of the
workflow: check the breaker (`isOpen` may mutate it), check the rate
limiter, run the scrape under `retry` with the workflow's options and the
default retry condition, record breaker success/failure, run the analyzer
on success, and record errors and result entries. All timestamps are taken
at the single instant `now`. -/
def processUnit {R A : Type} (scrape : Nat → Platform → Nat → Except ErrObj R)
    (analyze : R → Except ErrObj A) (attempts : Nat) (now : Nat)
    (cid : Nat) (p : Platform) (s : ExecState) : ExecState × UnitStep A :=
  let key := (cid, p)
  let checked := isOpenCB now (s.breakers key)
  let s1 := { s with breakers := setBreaker s.breakers key checked.2 }
  if checked.1 then
    let e1 : List ErrEntry := [⟨some cid, some p, "Circuit breaker open", none⟩]
    ({ s1 with errors := s1.errors ++ e1 }, UnitStep.skip)
  else
    let acq := tryAcquireL (rateLimitMax p) rateWindowMs now (s1.limiters p)
    let s2 := { s1 with limiters := setLimiter s1.limiters p acq.2 }
    if !acq.1 then
      let e2 : List ErrEntry :=
        [⟨some cid, some p, "Rate limit exceeded", some (getResetTimeL rateWindowMs now acq.2)⟩]
      ({ s2 with errors := s2.errors ++ e2 }, UnitStep.skip)
    else
      let attempt := retryRun (scrape cid p) attempts isRetryableErrorB
      let s3 := { s2 with scrapeCount := s2.scrapeCount + attempt.2 }
      match attempt.1 with
      | Except.ok r =>
        let b4 := recordSuccessCB (s3.breakers key)
        let s4 := { s3 with breakers := setBreaker s3.breakers key b4 }
        match analyze r with
        | Except.ok a =>
          (s4, UnitStep.entry ⟨p, true, some a, none⟩)
        | Except.error e =>
          let b5 := recordFailureCB now (s4.breakers key)
          let s5 := { s4 with breakers := setBreaker s4.breakers key b5 }
          let e5 : List ErrEntry := [⟨some cid, some p, e.message, none⟩]
          ({ s5 with errors := s5.errors ++ e5 },
           UnitStep.entry ⟨p, false, none, some e.message⟩)
      | Except.error oe =>
        let b4 := recordFailureCB now (s3.breakers key)
        let s4 := { s3 with breakers := setBreaker s3.breakers key b4 }
        match oe with
        | some e =>
          let e4 : List ErrEntry := [⟨some cid, some p, e.message, none⟩]
          ({ s4 with errors := s4.errors ++ e4 },
           UnitStep.entry ⟨p, false, none, some e.message⟩)
        | none => (s4, UnitStep.crashed)

/-- The sequential per-client platform loop. A crash aborts the remaining
platforms of this client and discards the entries collected so far (the
client's promise rejects), while mutations of the shared state persist. -/
def processClient {R A : Type} (scrape : Nat → Platform → Nat → Except ErrObj R)
    (analyze : R → Except ErrObj A) (attempts : Nat) (now : Nat) (cid : Nat) :
    List Platform → ExecState → ExecState × Except Unit (List (PResultEntry A))
  | [], s => (s, Except.ok [])
  | p :: ps, s =>
    match processUnit scrape analyze attempts now cid p s with
    | (s1, UnitStep.skip) => processClient scrape analyze attempts now cid ps s1
    | (s1, UnitStep.entry e) =>
      match processClient scrape analyze attempts now cid ps s1 with
      | (s2, Except.ok es) => (s2, Except.ok (e :: es))
      | (s2, Except.error u) => (s2, Except.error u)
    | (s1, UnitStep.crashed) => (s1, Except.error ())

/-- Model of `chunkArray`: split into consecutive chunks of the batch size. The
fuel is the list length; the workflow only calls this with sizes 1, 3, 5. -/
def chunkAux {α : Type} : Nat → List α → Nat → List (List α)
  | 0, _, _ => []
  | _, [], _ => []
  | fuel + 1, x :: xs, size => ((x :: xs).take size) :: chunkAux fuel ((x :: xs).drop size) size

/-- Entry point of `chunkArray`. -/
def chunkArray {α : Type} (l : List α) (size : Nat) : List (List α) :=
  chunkAux l.length l size

/-- Run one batch: process each client, then settle the batch in order —
a fulfilled client pushes its entry onto `results`, a rejected one pushes
a bare error entry (the `TypeError` message) onto `errors`. Returns the
shared state and the fulfilled entries of this batch in order. -/
def runBatch {R A : Type} (scrape : Nat → Platform → Nat → Except ErrObj R)
    (analyze : R → Except ErrObj A) (attempts : Nat) (now : Nat)
    (platforms : List Platform) :
    List (Nat × String) → ExecState → ExecState × List (ClientEntry A)
  | [], s => (s, [])
  | (cid, cname) :: rest, s =>
    let r := processClient scrape analyze attempts now cid platforms s
    let tail := runBatch scrape analyze attempts now platforms rest r.1
    match r.2 with
    | Except.ok es => (tail.1, ⟨cid, cname, es⟩ :: tail.2)
    | Except.error _ =>
      let crashMsg : List ErrEntry :=
        [⟨none, none, "Cannot read properties of undefined (reading message)", none⟩]
      ({ tail.1 with errors := tail.1.errors ++ crashMsg }, tail.2)

/-- Sequential batch loop over the chunked client list. -/
def runBatches {R A : Type} (scrape : Nat → Platform → Nat → Except ErrObj R)
    (analyze : R → Except ErrObj A) (attempts : Nat) (now : Nat)
    (platforms : List Platform) :
    List (List (Nat × String)) → ExecState → ExecState × List (ClientEntry A)
  | [], s => (s, [])
  | batch :: more, s =>
    let r := runBatch scrape analyze attempts now platforms batch s
    let rest := runBatches scrape analyze attempts now platforms more r.1
    (rest.1, r.2 ++ rest.2)

/-- The value returned by `execute` (execution time is not modelled):
`fatal` carries the message of a top-level throw (only the empty-client
check in the modelled fragment), otherwise `results`, `errors` and the
aggregate counters are filled in, along with the total number of scrape
invocations. -/
structure Outcome (A : Type) where
  fatal : Option String
  results : List (ClientEntry A)
  errors : List ErrEntry
  scrapeCount : Nat
  totalClients : Nat
  totalPlatforms : Nat
  successfulResults : Nat
  failedResults : Nat
deriving DecidableEq

/-- Model of `monitoringWorkflow.execute`, for an already resolved client list:
empty clients throw `'No clients found for monitoring'`; otherwise the
priority picks the batch concurrency (high 5, medium 3, low 1), clients
are chunked and processed batch by batch, and the outcome aggregates
results and errors. Intra-batch clients are modelled in batch order (the
linearization of `Promise.allSettled`; exact for priority `'low'`). -/
def executeModel {R A : Type} (scrape : Nat → Platform → Nat → Except ErrObj R)
    (analyze : R → Except ErrObj A) (initBreakers : Nat × Platform → CB)
    (now : Nat) (clients : List (Nat × String)) (platforms : List Platform)
    (priority : String) (maxRetries : Nat) : Outcome A :=
  if clients.length = 0 then
    ⟨some "No clients found for monitoring", [], [], 0, 0, 0, 0, 0⟩
  else
    let concurrency := if priority = "high" then 5 else if priority = "medium" then 3 else 1
    let s0 : ExecState := ⟨initBreakers, fun _ => [], [], 0⟩
    let run := runBatches scrape analyze maxRetries now platforms
      (chunkArray clients concurrency) s0
    ⟨none, run.2, run.1.errors, run.1.scrapeCount,
     clients.length, platforms.length, run.2.length, run.1.errors.length⟩

/-! ## Claim-specific definitions -/

/-- The breaker state after k calls to `tryAcquire()` at the single time
`t` on a limiter with the given `maxRequests` and `windowMs`, starting
from the empty timestamp list. -/
def stateAfterCalls (maxRequests windowMs t : Nat) : Nat → List Nat
  | 0 => []
  | k + 1 => (tryAcquireL maxRequests windowMs t (stateAfterCalls maxRequests windowMs t k)).2

/-- Modelled from the claim's words (C4), for comparison with the source's
`isRetryableError`: retryable iff the error's code is one of the three
network signatures or the three HTTP codes, or its message contains one of
the three listed substrings. -/
def claimRetryable (e : ErrObj) : Bool :=
  (e.code = "ETIMEDOUT" || e.code = "ECONNRESET" || e.code = "ECONNREFUSED" ||
   e.code = "429" || e.code = "503" || e.code = "504") ||
  (substrB "TIMEOUT" e.message || substrB "RATE_LIMIT" e.message ||
   substrB "TEMPORARY_FAILURE" e.message)

/-- Modelled from the claim's words (C5), for comparison with the source's
`calculateMentionStrength`: each bonus is granted at most once, when ANY
context matches. -/
def claimMentionStrength (contexts : List String) (brand : String) : Nat :=
  Nat.min (50 + (if contexts.any endorsementMatch then 10 else 0) +
    (if contexts.any (fun c => subjectMatch c brand) then 5 else 0) +
    (if contexts.any comparisonWinMatch then 5 else 0)) 100

/-- The per-context strength bonus of `calculateMentionStrength`. -/
def contextBonus (brand context : String) : Nat :=
  (if endorsementMatch context then 10 else 0) +
  (if subjectMatch context brand then 5 else 0) +
  (if comparisonWinMatch context then 5 else 0)

/-- Fresh shared state for the C1 scenario: every breaker new, every
limiter empty. -/
def c1State : ExecState :=
  ⟨fun _ => initCB workflowCBOptions, fun _ => [], [], 0⟩

/-- The C1 work unit: the scrape succeeds on the first attempt and the
analyzer throws `Error('analysis failed')`. -/
def c1Run : ExecState × UnitStep String :=
  processUnit (fun _ _ _ => Except.ok "resp")
    (fun _ => Except.error ⟨"analysis failed", ""⟩) 1 0 1 Platform.chatgpt c1State

/-- Initial breakers of the C2 end-to-end scenario: the unit of client 1 on
chatgpt is pre-opened (its failure recorded at time 0, the run's single
instant), all others fresh. -/
def c2Breakers : Nat × Platform → CB := fun k =>
  if k = (1, Platform.chatgpt) then ⟨workflowCBOptions, 5, some 0, "OPEN", 0⟩
  else initCB workflowCBOptions

/-- The C2 end-to-end run: 2 clients × 2 platforms, priority low,
maxRetries 0, an always-succeeding scrape and an always-succeeding
analyzer. -/
def c2Outcome : Outcome String :=
  executeModel (fun _ _ _ => Except.ok "resp") (fun r => Except.ok r) c2Breakers 0
    [(1, "c1"), (2, "c2")] [Platform.chatgpt, Platform.perplexity] "low" 0

/-- Shared state for the C3 counterexample: every breaker of this state is
already OPEN (failure recorded at the run's instant 0). -/
def c3State : ExecState :=
  ⟨fun _ => ⟨workflowCBOptions, 5, some 0, "OPEN", 0⟩, fun _ => [], [], 0⟩

/-- The C3 counterexample run: one client, one platform whose breaker is
open. -/
def c3Run : ExecState × Except Unit (List (PResultEntry String)) :=
  processClient (fun _ _ _ => Except.ok "resp") (fun r => Except.ok r) 1 0 1
    [Platform.chatgpt] c3State

/-- Shared state with the chatgpt limiter at capacity (10 timestamps at
instant 0) and fresh breakers, for the C3 rate-limit case. -/
def c3LimState : ExecState :=
  ⟨fun _ => initCB workflowCBOptions, fun _ => List.replicate 10 0, [], 0⟩

/-- Fresh shared state for the C3 scrape-failure case. -/
def c3FreshState : ExecState :=
  ⟨fun _ => initCB workflowCBOptions, fun _ => [], [], 0⟩

/-- A scrape operation that always throws the non-retryable `boom`. -/
def c3Scrape : Nat → Platform → Nat → Except ErrObj String :=
  fun _ _ _ => Except.error ⟨"boom", ""⟩

/-- An analyzer that succeeds on every input. -/
def c3Analyze : String → Except ErrObj String :=
  fun r => Except.ok r

/-! ## Helper lemmas -/

theorem filter_replicate_of_pos (p : Nat → Bool) (a : Nat) (hp : p a = true) :
    ∀ k, (List.replicate k a).filter p = List.replicate k a := by
  intro k
  induction k with
  | zero => rfl
  | succ n ih => simp [List.replicate_succ, List.filter_cons, hp, ih]

theorem filter_replicate_of_neg (p : Nat → Bool) (a : Nat) (hp : p a = false) :
    ∀ k, (List.replicate k a).filter p = [] := by
  intro k
  induction k with
  | zero => rfl
  | succ n ih => simp [List.replicate_succ, List.filter_cons, hp, ih]

theorem tryAcquireL_replicate (maxRequests windowMs t k : Nat) (hW : 0 < windowMs) :
    tryAcquireL maxRequests windowMs t (List.replicate k t) =
      if k < maxRequests then (true, List.replicate (k + 1) t)
      else (false, List.replicate k t) := by
  have hp : (fun (x : Nat) => decide ((x : Int) > (t : Int) - (windowMs : Int))) t = true := by
    apply decide_eq_true
    omega
  have hkept := filter_replicate_of_pos
    (fun (x : Nat) => decide ((x : Int) > (t : Int) - (windowMs : Int))) t hp k
  unfold tryAcquireL
  simp only [hkept, List.length_replicate]
  by_cases hlt : k < maxRequests
  · simp [hlt, List.replicate_succ']
  · simp [hlt]

theorem stateAfterCalls_eq_replicate (maxRequests windowMs t : Nat)
    (hW : 0 < windowMs) :
    ∀ k, k ≤ maxRequests →
      stateAfterCalls maxRequests windowMs t k = List.replicate k t := by
  intro k
  induction k with
  | zero => intro _; rfl
  | succ n ih =>
    intro hk
    have hrep := ih (Nat.le_of_succ_le hk)
    have hlt : n < maxRequests := Nat.lt_of_succ_le hk
    simp only [stateAfterCalls, hrep, tryAcquireL_replicate maxRequests windowMs t n hW, hlt]
    simp

/-! ## Claims -/

/-- C10: whenever the breaker is in the HALF_OPEN state, `isOpen()` returns
false and leaves the breaker unchanged (so admission in HALF_OPEN is
unbounded); only `recordSuccess()` or `recordFailure()` can leave
HALF_OPEN. -/
theorem c10_half_open_admits (b : CB) (now : Nat) (h : b.state = "HALF_OPEN") :
    (isOpenCB now b).1 = false ∧ (isOpenCB now b).2 = b := by
  have hne : ¬ (b.state = "OPEN") := by rw [h]; decide
  simp [isOpenCB, hne]

/-- Witness for C10 at a concrete HALF_OPEN breaker. -/
theorem c10_half_open_admits_witness :
    (CB.state ⟨⟨5, 60000, some 2⟩, 3, some 7, "HALF_OPEN", 1⟩ = "HALF_OPEN") ∧
    ((isOpenCB 99 ⟨⟨5, 60000, some 2⟩, 3, some 7, "HALF_OPEN", 1⟩).1 = false ∧
     (isOpenCB 99 ⟨⟨5, 60000, some 2⟩, 3, some 7, "HALF_OPEN", 1⟩).2 =
       ⟨⟨5, 60000, some 2⟩, 3, some 7, "HALF_OPEN", 1⟩) :=
  ⟨by decide, c10_half_open_admits ⟨⟨5, 60000, some 2⟩, 3, some 7, "HALF_OPEN", 1⟩ 99 (by decide)⟩

/-- C8: on a limiter with `maxRequests = N` and a positive window, the
first N `tryAcquire()` calls within one window all succeed, the (N+1)th
call in the same window fails, and once the window has elapsed past the
oldest admitted timestamp a further call succeeds again. -/
theorem c8_rate_limiter (maxRequests windowMs t k : Nat)
    (hW : 0 < windowMs) (hk : k < maxRequests) :
    (tryAcquireL maxRequests windowMs t (stateAfterCalls maxRequests windowMs t k)).1 = true ∧
    (tryAcquireL maxRequests windowMs t
      (stateAfterCalls maxRequests windowMs t maxRequests)).1 = false ∧
    (tryAcquireL maxRequests windowMs (t + windowMs)
      (stateAfterCalls maxRequests windowMs t maxRequests)).1 = true := by
  have hrepk := stateAfterCalls_eq_replicate maxRequests windowMs t hW k (Nat.le_of_lt hk)
  have hrepN := stateAfterCalls_eq_replicate maxRequests windowMs t hW maxRequests
    (Nat.le_refl _)
  refine ⟨?_, ?_, ?_⟩
  · rw [hrepk, tryAcquireL_replicate maxRequests windowMs t k hW]
    simp [hk]
  · rw [hrepN, tryAcquireL_replicate maxRequests windowMs t maxRequests hW]
    simp
  · have hq : (fun (x : Nat) =>
        decide ((x : Int) > ((t + windowMs : Nat) : Int) - (windowMs : Int))) t = false := by
      apply decide_eq_false
      omega
    have hkept := filter_replicate_of_neg
      (fun (x : Nat) => decide ((x : Int) > ((t + windowMs : Nat) : Int) - (windowMs : Int)))
      t hq maxRequests
    rw [hrepN]
    unfold tryAcquireL
    simp only [hkept, List.length_nil]
    have h0 : 0 < maxRequests := by omega
    simp [h0]

/-- Witness for C8 with N = 2, a 10ms window, calls at time 5. -/
theorem c8_rate_limiter_witness :
    (0 < 10 ∧ 1 < 2) ∧
    ((tryAcquireL 2 10 5 (stateAfterCalls 2 10 5 1)).1 = true ∧
     (tryAcquireL 2 10 5 (stateAfterCalls 2 10 5 2)).1 = false ∧
     (tryAcquireL 2 10 15 (stateAfterCalls 2 10 5 2)).1 = true) :=
  ⟨⟨by decide, by decide⟩, c8_rate_limiter 2 10 5 1 (by decide) (by decide)⟩

/-- C9: for every combination of inputs the total visibility score lies in
[15, 100]: the position, sentiment and competitor factors are each at
least 5 (and at most 25), the mention factor is at most 25, so the total
can never fall below 15 — tightening the spec's [0, 100]. -/
theorem c9_visibility_bounds (bm : List BrandMention) (cm : List CompetitorMention)
    (s : SentimentAnalysis) (p : PositionAnalysis) :
    15 ≤ (calculateVisibilityScore bm cm s p).score ∧
    (calculateVisibilityScore bm cm s p).score ≤ 100 ∧
    5 ≤ (calculateVisibilityScore bm cm s p).factors.positionScore ∧
    (calculateVisibilityScore bm cm s p).factors.positionScore ≤ 25 ∧
    5 ≤ (calculateVisibilityScore bm cm s p).factors.sentimentScore ∧
    (calculateVisibilityScore bm cm s p).factors.sentimentScore ≤ 25 ∧
    5 ≤ (calculateVisibilityScore bm cm s p).factors.competitorComparison ∧
    (calculateVisibilityScore bm cm s p).factors.competitorComparison ≤ 25 ∧
    (calculateVisibilityScore bm cm s p).factors.mentionCount ≤ 25 := by
  simp only [calculateVisibilityScore]
  split_ifs <;> simp_all

/-- C7: with threshold 5, five `recordFailure()` calls trip the breaker to
OPEN and `isOpen()` reports open; once the reset timeout has elapsed the
next `isOpen()` returns false and moves to HALF_OPEN — and only that one
check performs the transition, later checks return false leaving the
state untouched; with `halfOpenRequests = 2`, two `recordSuccess()` calls
close the breaker and reset `failureCount`; one `recordFailure()` in
HALF_OPEN reopens it. -/
theorem c7_breaker_scenario (resetT t0 t1 t2 : Nat) (h : t1 - t0 > resetT) :
    (recordFailureCB t0 (recordFailureCB t0 (recordFailureCB t0 (recordFailureCB t0
      (recordFailureCB t0 (initCB ⟨5, resetT, some 2⟩)))))).state = "OPEN" ∧
    (isOpenCB t0 (recordFailureCB t0 (recordFailureCB t0 (recordFailureCB t0
      (recordFailureCB t0 (recordFailureCB t0 (initCB ⟨5, resetT, some 2⟩))))))).1 = true ∧
    isOpenCB t1 (recordFailureCB t0 (recordFailureCB t0 (recordFailureCB t0
      (recordFailureCB t0 (recordFailureCB t0 (initCB ⟨5, resetT, some 2⟩)))))) =
      (false, ⟨⟨5, resetT, some 2⟩, 5, some t0, "HALF_OPEN", 0⟩) ∧
    isOpenCB t1 (⟨⟨5, resetT, some 2⟩, 5, some t0, "HALF_OPEN", 0⟩ : CB) =
      (false, ⟨⟨5, resetT, some 2⟩, 5, some t0, "HALF_OPEN", 0⟩) ∧
    (recordSuccessCB (recordSuccessCB
      (⟨⟨5, resetT, some 2⟩, 5, some t0, "HALF_OPEN", 0⟩ : CB))).state = "CLOSED" ∧
    (recordSuccessCB (recordSuccessCB
      (⟨⟨5, resetT, some 2⟩, 5, some t0, "HALF_OPEN", 0⟩ : CB))).failureCount = 0 ∧
    (recordFailureCB t2 (⟨⟨5, resetT, some 2⟩, 5, some t0, "HALF_OPEN", 0⟩ : CB)).state =
      "OPEN" := by
  have hb5 : recordFailureCB t0 (recordFailureCB t0 (recordFailureCB t0 (recordFailureCB t0
      (recordFailureCB t0 (initCB ⟨5, resetT, some 2⟩))))) =
      ⟨⟨5, resetT, some 2⟩, 5, some t0, "OPEN", 0⟩ := rfl
  rw [hb5]
  have hsub : t0 - t0 = 0 := Nat.sub_self t0
  refine ⟨rfl, ?_, ?_, rfl, rfl, rfl, rfl⟩
  · simp [isOpenCB, hsub]
  · simp [isOpenCB, h]

/-- Witness for C7 at the workflow's 60000ms reset timeout. -/
theorem c7_breaker_scenario_witness :
    (60001 - 0 > 60000) ∧
    ((recordFailureCB 0 (recordFailureCB 0 (recordFailureCB 0 (recordFailureCB 0
      (recordFailureCB 0 (initCB ⟨5, 60000, some 2⟩)))))).state = "OPEN" ∧
    (isOpenCB 0 (recordFailureCB 0 (recordFailureCB 0 (recordFailureCB 0
      (recordFailureCB 0 (recordFailureCB 0 (initCB ⟨5, 60000, some 2⟩))))))).1 = true ∧
    isOpenCB 60001 (recordFailureCB 0 (recordFailureCB 0 (recordFailureCB 0
      (recordFailureCB 0 (recordFailureCB 0 (initCB ⟨5, 60000, some 2⟩)))))) =
      (false, ⟨⟨5, 60000, some 2⟩, 5, some 0, "HALF_OPEN", 0⟩) ∧
    isOpenCB 60001 (⟨⟨5, 60000, some 2⟩, 5, some 0, "HALF_OPEN", 0⟩ : CB) =
      (false, ⟨⟨5, 60000, some 2⟩, 5, some 0, "HALF_OPEN", 0⟩) ∧
    (recordSuccessCB (recordSuccessCB
      (⟨⟨5, 60000, some 2⟩, 5, some 0, "HALF_OPEN", 0⟩ : CB))).state = "CLOSED" ∧
    (recordSuccessCB (recordSuccessCB
      (⟨⟨5, 60000, some 2⟩, 5, some 0, "HALF_OPEN", 0⟩ : CB))).failureCount = 0 ∧
    (recordFailureCB 70000 (⟨⟨5, 60000, some 2⟩, 5, some 0, "HALF_OPEN", 0⟩ : CB)).state =
      "OPEN") :=
  ⟨by decide, c7_breaker_scenario 60000 0 60001 70000 (by decide)⟩

theorem isPrefixOf_self {α : Type} [BEq α] [LawfulBEq α] (l : List α) :
    l.isPrefixOf l = true := by
  induction l with
  | nil => rfl
  | cons a t ih => simp [List.isPrefixOf, ih]

theorem substrB_self (s : String) : substrB s s = true := by
  unfold substrB
  rw [List.any_eq_true]
  exact ⟨s.data, (List.mem_tails _ _).2 (List.suffix_refl _), isPrefixOf_self s.data⟩

/-- C4 counterexample: an error whose message is `NETWORK_ERROR` carries
none of the signatures listed by the claim, yet the code classifies it as
retryable, so the claim's "if and only if" fails at this input. -/
theorem c4_counterexample :
    isRetryableErrorB ⟨"NETWORK_ERROR", ""⟩ = true ∧
    claimRetryable ⟨"NETWORK_ERROR", ""⟩ = false := by
  constructor
  · rfl
  · rfl

/-- C4 (amended): the default classification returns true iff the message
or the code contains (as a substring) one of TIMEOUT, ETIMEDOUT,
ECONNRESET, ECONNREFUSED, NETWORK_ERROR, RATE_LIMIT, TEMPORARY_FAILURE,
429, 503, 504; for a non-retryable error, `retry` propagates it after the
single first attempt. -/
theorem c4_amended {R : Type} (e f : ErrObj) (op : Nat → Except ErrObj R)
    (attempts : Nat) (h1 : 1 ≤ attempts) (h2 : op 1 = Except.error f)
    (h3 : isRetryableErrorB f = false) :
    (isRetryableErrorB e = true ↔
      ∃ t ∈ retryableErrors, substrB t e.message = true ∨ substrB t e.code = true) ∧
    retryRun op attempts isRetryableErrorB = (Except.error (some f), 1) := by
  constructor
  · unfold isRetryableErrorB
    rw [List.any_eq_true]
    constructor
    · rintro ⟨t, htmem, hcond⟩
      refine ⟨t, htmem, ?_⟩
      simp only [Bool.or_eq_true, decide_eq_true_eq] at hcond
      rcases hcond with (hm | hc) | heq
      · exact Or.inl hm
      · exact Or.inr hc
      · right
        rw [heq]
        exact substrB_self t
    · rintro ⟨t, htmem, hm | hc⟩
      · exact ⟨t, htmem, by simp [hm]⟩
      · exact ⟨t, htmem, by simp [hc]⟩
  · cases attempts with
    | zero => omega
    | succ k =>
      unfold retryRun retryAux
      rw [h2]
      simp [h3]

/-- Witness for C4 at a retryable probe error and a non-retryable failing
operation run with 2 attempts. -/
theorem c4_amended_witness :
    (1 ≤ 2 ∧
     (fun (_ : Nat) => (Except.error ⟨"plain failure", ""⟩ : Except ErrObj String)) 1 =
       Except.error ⟨"plain failure", ""⟩ ∧
     isRetryableErrorB ⟨"plain failure", ""⟩ = false) ∧
    ((isRetryableErrorB ⟨"request TIMEOUT", ""⟩ = true ↔
      ∃ t ∈ retryableErrors,
        substrB t (ErrObj.message ⟨"request TIMEOUT", ""⟩) = true ∨
        substrB t (ErrObj.code ⟨"request TIMEOUT", ""⟩) = true) ∧
     retryRun (fun (_ : Nat) => (Except.error ⟨"plain failure", ""⟩ : Except ErrObj String))
       2 isRetryableErrorB = (Except.error (some ⟨"plain failure", ""⟩), 1)) :=
  ⟨⟨by decide, rfl, by decide⟩,
   c4_amended ⟨"request TIMEOUT", ""⟩ ⟨"plain failure", ""⟩
     (fun _ => Except.error ⟨"plain failure", ""⟩) 2 (by decide) rfl (by decide)⟩

/-- C5 counterexample: with two contexts that both match the
strong-endorsement pattern the code adds the bonus twice (strength 70),
while the claim's once-per-kind reading yields 60. -/
theorem c5_counterexample :
    calculateMentionStrength ["highly recommend alpha", "highly recommend beta"] "zed" = 70 ∧
    claimMentionStrength ["highly recommend alpha", "highly recommend beta"] "zed" = 60 := by
  constructor
  · decide
  · decide

theorem strength_foldl_eq (brand : String) :
    ∀ (l : List String) (a : Nat),
      l.foldl (fun acc context =>
        let a1 := if endorsementMatch context then acc + 10 else acc
        let a2 := if subjectMatch context brand then a1 + 5 else a1
        if comparisonWinMatch context then a2 + 5 else a2) a =
      a + (l.map (contextBonus brand)).sum := by
  intro l
  induction l with
  | nil => intro a; simp
  | cons c t ih =>
    intro a
    simp only [List.foldl_cons, List.map_cons, List.sum_cons]
    rw [ih]
    unfold contextBonus
    split_ifs <;> omega

/-- C5 (amended): for every non-empty context list the mention strength is
50 plus the SUM over all contexts of their bonuses (10 per context with a
strong endorsement, 5 per context opened by the brand or with the brand as
subject, 5 per context with a comparison win), capped at 100. -/
theorem c5_amended (contexts : List String) (brand : String) (_h : contexts ≠ []) :
    calculateMentionStrength contexts brand =
      Nat.min (50 + (contexts.map (contextBonus brand)).sum) 100 := by
  unfold calculateMentionStrength
  rw [strength_foldl_eq]

/-- Witness for C5 on a one-context list. -/
theorem c5_amended_witness :
    ((["zed is better than x"] : List String) ≠ []) ∧
    calculateMentionStrength ["zed is better than x"] "zed" =
      Nat.min (50 + ((["zed is better than x"] : List String).map (contextBonus "zed")).sum)
        100 :=
  ⟨by decide, c5_amended ["zed is better than x"] "zed" (by decide)⟩

theorem analyzeBrandMentions_nil (text : String) :
    ∀ brands : List String, (∀ b ∈ brands, scanPositions text b = []) →
      analyzeBrandMentions text brands = [] := by
  intro brands
  induction brands with
  | nil => intro _; rfl
  | cons b bs ih =>
    intro h
    have hb := h b (List.mem_cons_self b bs)
    have hbs := ih (fun x hx => h x (List.mem_cons_of_mem b hx))
    simp [analyzeBrandMentions, hb, hbs]

theorem analyzeCompetitorMentions_nil (text : String) :
    ∀ comps : List String, (∀ c ∈ comps, scanPositions text c = []) →
      analyzeCompetitorMentions text comps = [] := by
  intro comps
  induction comps with
  | nil => intro _; rfl
  | cons c cs ih =>
    intro h
    have hc := h c (List.mem_cons_self c cs)
    have hcs := ih (fun x hx => h x (List.mem_cons_of_mem c hx))
    simp [analyzeCompetitorMentions, hc, hcs]

/-- C6: a text with no whole-word match of any brand and none of any
competitor yields the position sentinel (average -1, bucket `"end"`),
factors 0 / 5 / 15 / 15, total visibility 35, and a recommendation list
containing the critical no-mentions advice. -/
theorem c6_zero_mention_analysis (text : String) (brands comps : List String)
    (h1 : ∀ b ∈ brands, scanPositions text b = [])
    (h2 : ∀ c ∈ comps, scanPositions text c = []) :
    (analyzeAll text brands comps).position.averagePosition = -1 ∧
    (analyzeAll text brands comps).position.relativePosition = "end" ∧
    (analyzeAll text brands comps).visibility.factors.mentionCount = 0 ∧
    (analyzeAll text brands comps).visibility.factors.positionScore = 5 ∧
    (analyzeAll text brands comps).visibility.factors.sentimentScore = 15 ∧
    (analyzeAll text brands comps).visibility.factors.competitorComparison = 15 ∧
    (analyzeAll text brands comps).visibility.score = 35 ∧
    "Critical: No brand mentions detected" ∈ (analyzeAll text brands comps).recommendations := by
  have hb := analyzeBrandMentions_nil text brands h1
  have hc := analyzeCompetitorMentions_nil text comps h2
  simp only [analyzeAll, hb, hc]
  decide

/-- Witness for C6 on a short text without the probe names. -/
theorem c6_zero_mention_analysis_witness :
    ((∀ b ∈ (["aa"] : List String), scanPositions "zz qq" b = []) ∧
     (∀ c ∈ (["bb"] : List String), scanPositions "zz qq" c = [])) ∧
    ((analyzeAll "zz qq" ["aa"] ["bb"]).position.averagePosition = -1 ∧
     (analyzeAll "zz qq" ["aa"] ["bb"]).position.relativePosition = "end" ∧
     (analyzeAll "zz qq" ["aa"] ["bb"]).visibility.factors.mentionCount = 0 ∧
     (analyzeAll "zz qq" ["aa"] ["bb"]).visibility.factors.positionScore = 5 ∧
     (analyzeAll "zz qq" ["aa"] ["bb"]).visibility.factors.sentimentScore = 15 ∧
     (analyzeAll "zz qq" ["aa"] ["bb"]).visibility.factors.competitorComparison = 15 ∧
     (analyzeAll "zz qq" ["aa"] ["bb"]).visibility.score = 35 ∧
     "Critical: No brand mentions detected" ∈
       (analyzeAll "zz qq" ["aa"] ["bb"]).recommendations) :=
  ⟨⟨by decide, by decide⟩,
   c6_zero_mention_analysis "zz qq" ["aa"] ["bb"] (by decide) (by decide)⟩

/-- C1: at a work unit where the scrape succeeds and the analyzer then
throws, `execute`'s shared catch block fires: the analysis error IS pushed
to both lists, but `breaker.recordFailure()` also runs, so the breaker's
failure count is one more than it was after `recordSuccess()` — the code
contradicts the spec's error taxonomy (and its own "Scraping failed" log
attribution). -/
theorem c1_analysis_error_hits_breaker :
    ((c1Run.1.breakers (1, Platform.chatgpt)).failureCount = 1 ∧
     (c1Run.1.breakers (1, Platform.chatgpt)).state = "CLOSED") ∧
    (recordSuccessCB (recordSuccessCB (initCB workflowCBOptions))).failureCount = 0 ∧
    ¬ (c1Run.1.breakers (1, Platform.chatgpt) =
        recordSuccessCB (initCB workflowCBOptions)) ∧
    c1Run.1.errors = [⟨some 1, some Platform.chatgpt, "analysis failed", none⟩] ∧
    c1Run.2 = UnitStep.entry ⟨Platform.chatgpt, false, none, some "analysis failed"⟩ := by
  decide

/-- C2 counterexample: in the spec's end-to-end scenario (priority low,
maxRetries 0, 2 clients × 2 platforms, the first unit's breaker pre-opened)
the scrape operation is NOT invoked three times — `retry` with
`attempts = 0` never calls it. -/
theorem c2_counterexample : ¬ (c2Outcome.scrapeCount = 3) := by
  decide

/-- C2 (amended): in that scenario exactly one 'Circuit breaker open'
error is recorded, but the scrape operation is invoked zero times:
`retry(fn, {attempts: 0})` performs no attempt and throws `undefined`,
which additionally crashes each client's task at its first non-skipped
unit (two bare batch errors, no fulfilled client results). -/
theorem c2_amended :
    c2Outcome.scrapeCount = 0 ∧
    (c2Outcome.errors.filter (fun e => e.msg = "Circuit breaker open")).length = 1 ∧
    c2Outcome.errors.length = 3 ∧
    c2Outcome.results = [] := by
  decide

/-- C3 counterexample: a unit skipped by an open circuit breaker records
its error in the outcome's top-level error list but contributes NO
`{platform, success:false, error}` entry to the client's result list — the
claim's "both lists" fails for this error kind. -/
theorem c3_counterexample :
    c3Run.1.errors = [⟨some 1, some Platform.chatgpt, "Circuit breaker open", none⟩] ∧
    c3Run.2 = Except.ok [] := by
  constructor
  · rfl
  · rfl

/-- C3 (amended): a circuit-open or rate-limited unit records its error in
the top-level error list only and is skipped with no per-platform result
entry, while a scrape failure after retries (a defined last error) is
recorded both in the error list and as a `{platform, success:false,
error}` entry; in each case the per-client loop continues with the
remaining platforms from the updated state. -/
theorem c3_amended {R A : Type} (scrape : Nat → Platform → Nat → Except ErrObj R)
    (analyze : R → Except ErrObj A) (attempts now cid : Nat) (p : Platform)
    (ps : List Platform) (sA sB sC : ExecState) (e : ErrObj) (n : Nat)
    (hA : (isOpenCB now (sA.breakers (cid, p))).1 = true)
    (hB1 : (isOpenCB now (sB.breakers (cid, p))).1 = false)
    (hB2 : (tryAcquireL (rateLimitMax p) rateWindowMs now (sB.limiters p)).1 = false)
    (hC1 : (isOpenCB now (sC.breakers (cid, p))).1 = false)
    (hC2 : (tryAcquireL (rateLimitMax p) rateWindowMs now (sC.limiters p)).1 = true)
    (hC3 : retryRun (scrape cid p) attempts isRetryableErrorB =
      (Except.error (some e), n)) :
    ((processUnit scrape analyze attempts now cid p sA).2 = (UnitStep.skip : UnitStep A) ∧
     (processUnit scrape analyze attempts now cid p sA).1.errors =
       sA.errors ++ [⟨some cid, some p, "Circuit breaker open", none⟩] ∧
     processClient scrape analyze attempts now cid (p :: ps) sA =
       processClient scrape analyze attempts now cid ps
         (processUnit scrape analyze attempts now cid p sA).1) ∧
    ((processUnit scrape analyze attempts now cid p sB).2 = (UnitStep.skip : UnitStep A) ∧
     (processUnit scrape analyze attempts now cid p sB).1.errors =
       sB.errors ++ [⟨some cid, some p, "Rate limit exceeded",
         some (getResetTimeL rateWindowMs now
           (tryAcquireL (rateLimitMax p) rateWindowMs now (sB.limiters p)).2)⟩] ∧
     processClient scrape analyze attempts now cid (p :: ps) sB =
       processClient scrape analyze attempts now cid ps
         (processUnit scrape analyze attempts now cid p sB).1) ∧
    ((processUnit scrape analyze attempts now cid p sC).2 =
       UnitStep.entry ⟨p, false, none, some e.message⟩ ∧
     (processUnit scrape analyze attempts now cid p sC).1.errors =
       sC.errors ++ [⟨some cid, some p, e.message, none⟩] ∧
     processClient scrape analyze attempts now cid (p :: ps) sC =
       (match processClient scrape analyze attempts now cid ps
           (processUnit scrape analyze attempts now cid p sC).1 with
        | (s2, Except.ok es) =>
          (s2, Except.ok (⟨p, false, none, some e.message⟩ :: es))
        | (s2, Except.error u) => (s2, Except.error u))) := by
  have hskipA : (processUnit scrape analyze attempts now cid p sA).2 =
      (UnitStep.skip : UnitStep A) := by
    simp [processUnit, hA]
  have herrA : (processUnit scrape analyze attempts now cid p sA).1.errors =
      sA.errors ++ [⟨some cid, some p, "Circuit breaker open", none⟩] := by
    simp [processUnit, hA]
  have hpairA : processUnit scrape analyze attempts now cid p sA =
      ((processUnit scrape analyze attempts now cid p sA).1, UnitStep.skip) := by
    rw [← hskipA]
  have hcontA : processClient scrape analyze attempts now cid (p :: ps) sA =
      processClient scrape analyze attempts now cid ps
        (processUnit scrape analyze attempts now cid p sA).1 := by
    conv_lhs => rw [processClient, hpairA]
  have hskipB : (processUnit scrape analyze attempts now cid p sB).2 =
      (UnitStep.skip : UnitStep A) := by
    simp [processUnit, hB1, hB2]
  have herrB : (processUnit scrape analyze attempts now cid p sB).1.errors =
      sB.errors ++ [⟨some cid, some p, "Rate limit exceeded",
        some (getResetTimeL rateWindowMs now
          (tryAcquireL (rateLimitMax p) rateWindowMs now (sB.limiters p)).2)⟩] := by
    simp [processUnit, hB1, hB2]
  have hpairB : processUnit scrape analyze attempts now cid p sB =
      ((processUnit scrape analyze attempts now cid p sB).1, UnitStep.skip) := by
    rw [← hskipB]
  have hcontB : processClient scrape analyze attempts now cid (p :: ps) sB =
      processClient scrape analyze attempts now cid ps
        (processUnit scrape analyze attempts now cid p sB).1 := by
    conv_lhs => rw [processClient, hpairB]
  have hstepC : (processUnit scrape analyze attempts now cid p sC).2 =
      UnitStep.entry ⟨p, false, none, some e.message⟩ := by
    simp [processUnit, hC1, hC2, hC3]
  have herrC : (processUnit scrape analyze attempts now cid p sC).1.errors =
      sC.errors ++ [⟨some cid, some p, e.message, none⟩] := by
    simp [processUnit, hC1, hC2, hC3]
  have hpairC : processUnit scrape analyze attempts now cid p sC =
      ((processUnit scrape analyze attempts now cid p sC).1,
       UnitStep.entry ⟨p, false, none, some e.message⟩) := by
    rw [← hstepC]
  have hcontC : processClient scrape analyze attempts now cid (p :: ps) sC =
      (match processClient scrape analyze attempts now cid ps
          (processUnit scrape analyze attempts now cid p sC).1 with
       | (s2, Except.ok es) =>
         (s2, Except.ok (⟨p, false, none, some e.message⟩ :: es))
       | (s2, Except.error u) => (s2, Except.error u)) := by
    conv_lhs => rw [processClient, hpairC]
  exact ⟨⟨hskipA, herrA, hcontA⟩, ⟨hskipB, herrB, hcontB⟩, ⟨hstepC, herrC, hcontC⟩⟩

/-- Witness for C3 at the three concrete states: an open breaker, a full
chatgpt limiter, and a non-retryable scrape failure, each followed by a
second platform. -/
theorem c3_amended_witness :
    ((isOpenCB 0 (c3State.breakers (1, Platform.chatgpt))).1 = true ∧
     (isOpenCB 0 (c3LimState.breakers (1, Platform.chatgpt))).1 = false ∧
     (tryAcquireL (rateLimitMax Platform.chatgpt) rateWindowMs 0
       (c3LimState.limiters Platform.chatgpt)).1 = false ∧
     (isOpenCB 0 (c3FreshState.breakers (1, Platform.chatgpt))).1 = false ∧
     (tryAcquireL (rateLimitMax Platform.chatgpt) rateWindowMs 0
       (c3FreshState.limiters Platform.chatgpt)).1 = true ∧
     retryRun (c3Scrape 1 Platform.chatgpt) 1 isRetryableErrorB =
       (Except.error (some ⟨"boom", ""⟩), 1)) ∧
    (((processUnit c3Scrape c3Analyze 1 0 1 Platform.chatgpt c3State).2 =
        (UnitStep.skip : UnitStep String) ∧
      (processUnit c3Scrape c3Analyze 1 0 1 Platform.chatgpt c3State).1.errors =
        c3State.errors ++ [⟨some 1, some Platform.chatgpt, "Circuit breaker open", none⟩] ∧
      processClient c3Scrape c3Analyze 1 0 1 (Platform.chatgpt :: [Platform.perplexity])
          c3State =
        processClient c3Scrape c3Analyze 1 0 1 [Platform.perplexity]
          (processUnit c3Scrape c3Analyze 1 0 1 Platform.chatgpt c3State).1) ∧
     ((processUnit c3Scrape c3Analyze 1 0 1 Platform.chatgpt c3LimState).2 =
        (UnitStep.skip : UnitStep String) ∧
      (processUnit c3Scrape c3Analyze 1 0 1 Platform.chatgpt c3LimState).1.errors =
        c3LimState.errors ++ [⟨some 1, some Platform.chatgpt, "Rate limit exceeded",
          some (getResetTimeL rateWindowMs 0
            (tryAcquireL (rateLimitMax Platform.chatgpt) rateWindowMs 0
              (c3LimState.limiters Platform.chatgpt)).2)⟩] ∧
      processClient c3Scrape c3Analyze 1 0 1 (Platform.chatgpt :: [Platform.perplexity])
          c3LimState =
        processClient c3Scrape c3Analyze 1 0 1 [Platform.perplexity]
          (processUnit c3Scrape c3Analyze 1 0 1 Platform.chatgpt c3LimState).1) ∧
     ((processUnit c3Scrape c3Analyze 1 0 1 Platform.chatgpt c3FreshState).2 =
        UnitStep.entry ⟨Platform.chatgpt, false, none, some (ErrObj.message ⟨"boom", ""⟩)⟩ ∧
      (processUnit c3Scrape c3Analyze 1 0 1 Platform.chatgpt c3FreshState).1.errors =
        c3FreshState.errors ++
          [⟨some 1, some Platform.chatgpt, ErrObj.message ⟨"boom", ""⟩, none⟩] ∧
      processClient c3Scrape c3Analyze 1 0 1 (Platform.chatgpt :: [Platform.perplexity])
          c3FreshState =
        (match processClient c3Scrape c3Analyze 1 0 1 [Platform.perplexity]
            (processUnit c3Scrape c3Analyze 1 0 1 Platform.chatgpt c3FreshState).1 with
         | (s2, Except.ok es) =>
           (s2, Except.ok (⟨Platform.chatgpt, false, none,
             some (ErrObj.message ⟨"boom", ""⟩)⟩ :: es))
         | (s2, Except.error u) => (s2, Except.error u)))) :=
  ⟨⟨by decide, by decide, by decide, by decide, by decide, rfl⟩,
   c3_amended c3Scrape c3Analyze 1 0 1 Platform.chatgpt [Platform.perplexity]
     c3State c3LimState c3FreshState ⟨"boom", ""⟩ 1
     (by decide) (by decide) (by decide) (by decide) (by decide) rfl⟩

end AiSearchMonitor
